import Mathlib

/-!
Verification development for the `agent_core_deep_research` repository.

The Python sources are shallowly embedded as Lean functions:

* JSON values (Python `dict` payloads, response bodies) become the `JVal`
  inductive; Python truthiness becomes `JVal.truthy`; `dict.get` becomes
  `pget` / `pgetD`.
* The external `AgentCoreMemorySaver` (from `langgraph_checkpoint_aws`,
  not part of this repository) is modelled as an append-only log of the
  operations applied to it, with per-call fault injection describing
  whether a given underlying call raises.
* Exceptions are modelled with `Option String` (the raised message) or
  `Except String`; side effects are modelled by explicit state passing
  plus event traces.
-/

/-- Minimal JSON value model for Python dict/list/str/int/bool/None data
as it flows through the request payloads and responses of the repository's
entrypoints. -/
inductive JVal where
  | null : JVal
  | bool (b : Bool) : JVal
  | num (n : Int) : JVal
  | str (s : String) : JVal
  | arr (xs : List JVal) : JVal
  | obj (fields : List (String × JVal)) : JVal

/-- Python truthiness (`bool(v)`) of a JSON value: `None`, `False`, `0`,
`""`, `[]` and `{}` are falsy, everything else is truthy. -/
def JVal.truthy : JVal → Bool
  | JVal.null => false
  | JVal.bool b => b
  | JVal.num n => n != 0
  | JVal.str s => s != ""
  | JVal.arr xs => !xs.isEmpty
  | JVal.obj fs => !fs.isEmpty

/-- A JSON object body of a request (a Python dict), as a key/value list. -/
abbrev Payload := List (String × JVal)

/-- `payload.get(k)`: `some v` when key `k` is present, `none` otherwise. -/
def pget (p : Payload) (k : String) : Option JVal :=
  (p.find? (fun kv => kv.1 == k)).map (fun kv => kv.2)

/-- `payload.get(k, d)`: the stored value when key `k` is present (even if
that value is `None`), the default `d` otherwise. -/
def pgetD (p : Payload) (k : String) (d : JVal) : JVal :=
  (pget p k).getD d

/-- Whether a JSON value is an object carrying key `k`. -/
def JVal.hasKey : JVal → String → Bool
  | JVal.obj fs, k => fs.any (fun kv => kv.1 == k)
  | _, _ => false

/-- Whether a JSON value is a string. -/
def JVal.isStr : JVal → Bool
  | JVal.str _ => true
  | _ => false

/-- Whether a JSON value is an object. -/
def JVal.isObj : JVal → Bool
  | JVal.obj _ => true
  | _ => false

/-- Whether a JSON value is an object whose key `k` holds a string. -/
def JVal.hasStrKey : JVal → String → Bool
  | JVal.obj fs, k =>
    match fs.find? (fun kv => kv.1 == k) with
    | some kv => kv.2.isStr
    | none => false
  | _, _ => false

namespace MultiRegionAgentCoreMemorySaver

/-- Which of the two wrapped regional savers an underlying call goes to. -/
inductive Region where
  | primary : Region
  | secondary : Region
  deriving DecidableEq

/-- Name of a `MultiRegionAgentCoreMemorySaver` method whose underlying
saver calls are traced. -/
inductive OpName where
  | put : OpName
  | aput : OpName
  | put_writes : OpName
  | aput_writes : OpName
  | delete_thread : OpName
  | adelete_thread : OpName
  | get : OpName
  | aget : OpName
  | get_tuple : OpName
  | aget_tuple : OpName
  | list : OpName
  | alist : OpName
  | get_next_version : OpName
  deriving DecidableEq

/-- One traced call to an underlying regional saver. -/
structure Ev where
  region : Region
  op : OpName
  deriving DecidableEq

/-- One operation applied to an underlying `AgentCoreMemorySaver` store
(the external library's persistence is abstracted as a log of applied
operations; checkpoint/write contents are abstracted as `Nat` data). -/
inductive WriteRecord where
  | checkpoint (thread_id : String) (data : Nat) : WriteRecord
  | writes (thread_id : String) (ws : List (String × Nat))
      (task_id : String) (task_path : String) : WriteRecord
  | threadDeleted (thread_id : String) (actor_id : String) : WriteRecord
  deriving DecidableEq

/-- State of one underlying regional `AgentCoreMemorySaver` (external
library), modelled as the log of operations applied to it. -/
structure SaverState where
  log : List WriteRecord
  deriving DecidableEq

/-- State of the pair of regional savers held by
`MultiRegionAgentCoreMemorySaver` (`self.primary_saver` and
`self.secondary_saver`). -/
structure MRState where
  primary : SaverState
  secondary : SaverState
  deriving DecidableEq

/-- Fault injection for one wrapper call: `some msg` when the underlying
primary (resp. secondary) saver call would raise an exception with message
`msg`, `none` when it would succeed. -/
structure FaultSpec where
  primaryRaises : Option String
  secondaryRaises : Option String
  deriving DecidableEq

/-- One underlying saver write call: on success the operation is appended
to the store's log; on an injected fault the store is left unchanged and
the exception message is returned. -/
def saverApply (fail : Option String) (s : SaverState) (w : WriteRecord) :
    Option String × SaverState :=
  match fail with
  | some e => (some e, s)
  | none => (none, ⟨s.log ++ [w]⟩)

/-- Outcome of one wrapper write call: the raised exception (if any), the
resulting state of both stores (side effects applied before the raise are
kept), and the trace of underlying saver calls issued. -/
structure WriteOutcome where
  err : Option String
  state : MRState
  trace : List Ev
  deriving DecidableEq

/-- `MultiRegionAgentCoreMemorySaver.put`: write the checkpoint to the
primary saver first; if that raises, the exception propagates and the
secondary saver is never called; otherwise write to the secondary saver,
propagating its exception if it raises. -/
def put (f : FaultSpec) (s : MRState) (thread_id : String) (data : Nat) :
    WriteOutcome :=
  match saverApply f.primaryRaises s.primary (WriteRecord.checkpoint thread_id data) with
  | (some e, p1) => ⟨some e, ⟨p1, s.secondary⟩, [⟨Region.primary, OpName.put⟩]⟩
  | (none, p1) =>
    match saverApply f.secondaryRaises s.secondary (WriteRecord.checkpoint thread_id data) with
    | (some e, s1) =>
      ⟨some e, ⟨p1, s1⟩, [⟨Region.primary, OpName.put⟩, ⟨Region.secondary, OpName.put⟩]⟩
    | (none, s1) =>
      ⟨none, ⟨p1, s1⟩, [⟨Region.primary, OpName.put⟩, ⟨Region.secondary, OpName.put⟩]⟩

/-- `MultiRegionAgentCoreMemorySaver.aput`: async variant, identical
structure (await primary, then await secondary). -/
def aput (f : FaultSpec) (s : MRState) (thread_id : String) (data : Nat) :
    WriteOutcome :=
  match saverApply f.primaryRaises s.primary (WriteRecord.checkpoint thread_id data) with
  | (some e, p1) => ⟨some e, ⟨p1, s.secondary⟩, [⟨Region.primary, OpName.aput⟩]⟩
  | (none, p1) =>
    match saverApply f.secondaryRaises s.secondary (WriteRecord.checkpoint thread_id data) with
    | (some e, s1) =>
      ⟨some e, ⟨p1, s1⟩, [⟨Region.primary, OpName.aput⟩, ⟨Region.secondary, OpName.aput⟩]⟩
    | (none, s1) =>
      ⟨none, ⟨p1, s1⟩, [⟨Region.primary, OpName.aput⟩, ⟨Region.secondary, OpName.aput⟩]⟩

/-- `MultiRegionAgentCoreMemorySaver.put_writes`: store intermediate writes
to the primary saver, then the secondary saver. -/
def put_writes (f : FaultSpec) (s : MRState) (thread_id : String)
    (ws : List (String × Nat)) (task_id : String) (task_path : String) :
    WriteOutcome :=
  match saverApply f.primaryRaises s.primary (WriteRecord.writes thread_id ws task_id task_path) with
  | (some e, p1) => ⟨some e, ⟨p1, s.secondary⟩, [⟨Region.primary, OpName.put_writes⟩]⟩
  | (none, p1) =>
    match saverApply f.secondaryRaises s.secondary (WriteRecord.writes thread_id ws task_id task_path) with
    | (some e, s1) =>
      ⟨some e, ⟨p1, s1⟩,
        [⟨Region.primary, OpName.put_writes⟩, ⟨Region.secondary, OpName.put_writes⟩]⟩
    | (none, s1) =>
      ⟨none, ⟨p1, s1⟩,
        [⟨Region.primary, OpName.put_writes⟩, ⟨Region.secondary, OpName.put_writes⟩]⟩

/-- `MultiRegionAgentCoreMemorySaver.delete_thread`: delete the thread in
the primary saver, then in the secondary saver. -/
def delete_thread (f : FaultSpec) (s : MRState) (thread_id : String)
    (actor_id : String) : WriteOutcome :=
  match saverApply f.primaryRaises s.primary (WriteRecord.threadDeleted thread_id actor_id) with
  | (some e, p1) => ⟨some e, ⟨p1, s.secondary⟩, [⟨Region.primary, OpName.delete_thread⟩]⟩
  | (none, p1) =>
    match saverApply f.secondaryRaises s.secondary (WriteRecord.threadDeleted thread_id actor_id) with
    | (some e, s1) =>
      ⟨some e, ⟨p1, s1⟩,
        [⟨Region.primary, OpName.delete_thread⟩, ⟨Region.secondary, OpName.delete_thread⟩]⟩
    | (none, s1) =>
      ⟨none, ⟨p1, s1⟩,
        [⟨Region.primary, OpName.delete_thread⟩, ⟨Region.secondary, OpName.delete_thread⟩]⟩

/-- Whether a log record is a checkpoint stored for a given thread. -/
def WriteRecord.isCheckpointFor : WriteRecord → String → Bool
  | WriteRecord.checkpoint t _, thread => t == thread
  | _, _ => false

/-- The underlying saver's `get` (external library, modelled over the log):
the most recent checkpoint stored for the thread. -/
def saverGet (s : SaverState) (thread : String) : Option WriteRecord :=
  (s.log.filter (fun r => r.isCheckpointFor thread)).getLast?

/-- The underlying saver's `get_tuple` (external library, modelled over the
log like `saverGet`). -/
def saverGetTuple (s : SaverState) (thread : String) : Option WriteRecord :=
  (s.log.filter (fun r => r.isCheckpointFor thread)).getLast?

/-- The underlying saver's `list` (external library, modelled over the
log): the checkpoints stored for the thread. -/
def saverList (s : SaverState) (thread : String) : List WriteRecord :=
  s.log.filter (fun r => r.isCheckpointFor thread)

/-- The underlying saver's `get_next_version` (external library, modelled
abstractly as a function of the current version only). -/
def saverGetNextVersion (current : Option String) : String :=
  toString ((current.getD "").length + 1)

/-- `MultiRegionAgentCoreMemorySaver.get`: fetch a checkpoint from the
primary region only. Result value, resulting two-store state, and trace of
underlying saver calls. -/
def get (s : MRState) (thread : String) :
    Option WriteRecord × MRState × List Ev :=
  (saverGet s.primary thread, s, [⟨Region.primary, OpName.get⟩])

/-- `MultiRegionAgentCoreMemorySaver.aget`: async fetch from the primary
region only. -/
def aget (s : MRState) (thread : String) :
    Option WriteRecord × MRState × List Ev :=
  (saverGet s.primary thread, s, [⟨Region.primary, OpName.aget⟩])

/-- `MultiRegionAgentCoreMemorySaver.get_tuple`: checkpoint tuple from the
primary region only. -/
def get_tuple (s : MRState) (thread : String) :
    Option WriteRecord × MRState × List Ev :=
  (saverGetTuple s.primary thread, s, [⟨Region.primary, OpName.get_tuple⟩])

/-- `MultiRegionAgentCoreMemorySaver.aget_tuple`: async checkpoint tuple
from the primary region only. -/
def aget_tuple (s : MRState) (thread : String) :
    Option WriteRecord × MRState × List Ev :=
  (saverGetTuple s.primary thread, s, [⟨Region.primary, OpName.aget_tuple⟩])

/-- `MultiRegionAgentCoreMemorySaver.list`: list checkpoints from the
primary region only. -/
def list (s : MRState) (thread : String) :
    List WriteRecord × MRState × List Ev :=
  (saverList s.primary thread, s, [⟨Region.primary, OpName.list⟩])

/-- `MultiRegionAgentCoreMemorySaver.alist`: async list from the primary
region only. -/
def alist (s : MRState) (thread : String) :
    List WriteRecord × MRState × List Ev :=
  (saverList s.primary thread, s, [⟨Region.primary, OpName.alist⟩])

/-- `MultiRegionAgentCoreMemorySaver.get_next_version`: delegated to the
primary saver. -/
def get_next_version (s : MRState) (current : Option String) :
    String × MRState × List Ev :=
  (saverGetNextVersion current, s, [⟨Region.primary, OpName.get_next_version⟩])

end MultiRegionAgentCoreMemorySaver

namespace OAuth2CallbackServer

/-- The `UserTokenIdentifier` request body of `POST /userIdentifier/token`
(the external identity SDK's model, carrying the user token string). -/
structure UserTokenIdentifier where
  user_token : String
  deriving DecidableEq

/-- In-process state of an `OAuth2CallbackServer` instance: the region its
identity client was built for, and the stored user token identifier
(`None` until `POST /userIdentifier/token` is received). -/
structure ServerState where
  region : String
  user_token_identifier : Option UserTokenIdentifier
  deriving DecidableEq

/-- Body of an HTTP response: a JSON value or an HTML page. -/
inductive RespBody where
  | json (j : JVal) : RespBody
  | html (s : String) : RespBody

/-- An HTTP response: status code and body. -/
structure Response where
  status : Nat
  body : RespBody

/-- A call issued to the external AgentCore Identity service. -/
inductive IdentityEffect where
  | completeResourceTokenAuth (session_uri : String)
      (user_identifier : UserTokenIdentifier) : IdentityEffect
  deriving DecidableEq

/-- Handler of `POST /userIdentifier/token`: stores the identifier on the
server instance (`self.user_token_identifier = value`). Returns the new
in-process state and the (empty) list of external-service calls. -/
def store_user_token (v : UserTokenIdentifier) (st : ServerState) :
    ServerState × List IdentityEffect :=
  ({ st with user_token_identifier := some v }, [])

/-- Handler of `GET /ping`: a plain success body, served with HTTP 200. -/
def handle_ping : Response :=
  ⟨200, RespBody.json (JVal.obj [("status", JVal.str "success")])⟩

/-- The static HTML success page returned after a completed OAuth2 flow
(braces of the embedded CSS are escaped as `\x7b` / `\x7d`). -/
def html_content : String :=
  "
            <!DOCTYPE html>
            <html>
            <head>
                <title>OAuth2 Success</title>
                <style>
                    body \x7b
                        margin: 0;
                        padding: 0;
                        height: 100vh;
                        display: flex;
                        justify-content: center;
                        align-items: center;
                        font-family: Arial, sans-serif;
                        background-color: #f5f5f5;
                    \x7d
                    .container \x7b
                        text-align: center;
                        padding: 2rem;
                        background-color: white;
                        border-radius: 8px;
                        box-shadow: 0 2px 10px rgba(0, 0, 0, 0.1);
                    \x7d
                    h1 \x7b
                        color: #28a745;
                        margin: 0;
                    \x7d
                </style>
            </head>
            <body>
                <div class=\"container\">
                    <h1>Completed OAuth2 3LO flow successfully</h1>
                </div>
            </body>
            </html>
            "

/-- Handler of `GET /oauth2/callback`: the `session_id` query parameter is
received as a string (absent/empty is the falsy string `\"\"`). A falsy
`session_id` raises HTTPException 400; a missing stored token identifier
raises HTTPException 500; otherwise `complete_resource_token_auth` is
called on the identity client and the static HTML success page is returned
with status 200. FastAPI renders a raised HTTPException as a JSON
`detail` response with the given status. -/
def handle_oauth2_callback (session_id : String) (st : ServerState) :
    Response × List IdentityEffect :=
  if session_id = "" then
    (⟨400, RespBody.json (JVal.obj
      [("detail", JVal.str "Missing session_id query parameter")])⟩, [])
  else
    match st.user_token_identifier with
    | none =>
      (⟨500, RespBody.json (JVal.obj
        [("detail", JVal.str "Internal Server Error")])⟩, [])
    | some tok =>
      (⟨200, RespBody.html html_content⟩,
        [IdentityEffect.completeResourceTokenAuth session_id tok])

end OAuth2CallbackServer

/-- Result of one `POST /invocations` call as delivered by the AgentCore
runtime: a single JSON response, or a stream of Server-Sent-Events
`data:` chunks, each carrying one JSON value. -/
inductive InvokeResult where
  | json (j : JVal) : InvokeResult
  | stream (events : List JVal) : InvokeResult

namespace MathStreaming

/-- A partial state update produced by one graph node (a Python dict). -/
abbrev NodeUpdate := List (String × JVal)

/-- One step of `graph.stream(..., stream_mode="updates")`: a dict keyed
by node name, each value a partial state update. -/
abbrev GraphStep := List (String × NodeUpdate)

/-- Result dict of `answer_math_question` as consumed by the entrypoint
(the fields it reads; LLM message contents are modelled as strings). -/
structure MathResult where
  final_answer : String
  worker_output : String
  evaluation_result : String

/-- The event object yielded for one `(node_name, node_update)` pair in
`answer_math_question_streaming` (`stream_mode="updates"`): a payload
starting with the node name, extended with `messages`, `worker_output`
and `evaluation_result` when present and truthy. Messages are modelled as
already-serialized JSON values. -/
def stepEvent (node_name : String) (node_update : NodeUpdate) : JVal :=
  let fields := [("node", JVal.str node_name)]
  let fields := match pget node_update "messages" with
    | some v => if v.truthy then fields ++ [("messages", v)] else fields
    | none => fields
  let fields := match pget node_update "worker_output" with
    | some v => if v.truthy then fields ++ [("worker_output", v)] else fields
    | none => fields
  let fields := match pget node_update "evaluation_result" with
    | some v => if v.truthy then fields ++ [("evaluation_result", v)] else fields
    | none => fields
  JVal.obj fields

/-- `answer_math_question_streaming` (default `stream_mode="updates"`),
parameterized by the steps the underlying `graph.stream` produces: yields
one event per `(node_name, node_update)` pair of each step. -/
def answer_math_question_streaming (steps : List GraphStep) : List JVal :=
  steps.flatMap (fun step => step.map (fun p => stepEvent p.1 p.2))

/-- `_invoke_stream`: iterate the graph-streaming generator inside
`try`/`except`; `steps` are the steps the generator produces before it
either finishes (`gerr = none`) or raises (`gerr = some e`), in which case
one final `stream_error` event is yielded and the generator ends
normally. -/
def invoke_stream (steps : List GraphStep) (gerr : Option String) :
    List JVal :=
  match gerr with
  | none => answer_math_question_streaming steps
  | some e =>
    answer_math_question_streaming steps ++
      [JVal.obj [("type", JVal.str "stream_error"), ("error", JVal.str e)]]

/-- `bool(payload.get("stream") or payload.get("streaming"))`. -/
def want_stream (payload : Payload) : Bool :=
  (pgetD payload "stream" JVal.null).truthy ||
    (pgetD payload "streaming" JVal.null).truthy

/-- The `invoke` entrypoint of `agentcore_langgraph_math_streaming.py`,
parameterized by the behavior of the wrapped pipeline: `answer` is
`answer_math_question` (raising modelled by `Except.error`), and
`steps`/`gerr` describe what `graph.stream` produces on this input. The
returned `Except` is the entrypoint's own raise behavior: `Except.ok`
means the handler returns normally. -/
def invoke (answer : JVal → Except String MathResult)
    (steps : List GraphStep) (gerr : Option String)
    (payload : Payload) : Except String InvokeResult :=
  if want_stream payload then
    Except.ok (InvokeResult.stream (invoke_stream steps gerr))
  else
    match answer (pgetD payload "prompt" (JVal.str "")) with
    | Except.error e =>
      Except.ok (InvokeResult.json (JVal.obj
        [("type", JVal.str "error"), ("error", JVal.str e)]))
    | Except.ok result =>
      let final_answer :=
        if result.final_answer ≠ "" then result.final_answer
        else if result.worker_output ≠ "" then result.worker_output
        else ""
      Except.ok (InvokeResult.json (JVal.obj
        [("result", JVal.str final_answer),
         ("worker_output", JVal.str result.worker_output),
         ("evaluation_result", JVal.str result.evaluation_result)]))

end MathStreaming

namespace SimpleLanggraphAgent

/-- The `invoke` entrypoint of `simple.test/my_langgraph_agent.py`,
parameterized by the wrapped LLM graph (`llm` maps the prompt to the final
AI message content, modelled as a string): returns
`{"result": <content>}`. -/
def invoke (llm : JVal → String) (payload : Payload) : InvokeResult :=
  let user_message := pgetD payload "prompt" (JVal.str "Hello! How can I help you today?")
  InvokeResult.json (JVal.obj [("result", JVal.str (llm user_message))])

end SimpleLanggraphAgent

namespace AgentRuntimeDR

/-- The `configurable` dict built by the entrypoint and handed to the
agent. -/
structure Configurable where
  thread_id : JVal
  actor_id : JVal

/-- A message of the agent's response (`response["messages"]`), with its
content modelled as a string. -/
structure AgentMessage where
  content : String

/-- The `config = {"configurable": {"thread_id": ..., "actor_id": ...}}`
construction of `AgentcoreMemoryDR/agent_runtime.py`: defaults applied by
`payload.get(key, default)`. -/
def config_of (payload : Payload) : Configurable :=
  ⟨pgetD payload "thread_id" (JVal.str "default"),
   pgetD payload "actor_id" (JVal.str "agent-1")⟩

/-- The `invoke` entrypoint of `AgentcoreMemoryDR/agent_runtime.py`,
parameterized by the wrapped agent (which may raise). There is no
`try`/`except`: an agent exception propagates, as does the `IndexError`
of `response["messages"][-1]` on an empty message list. -/
def invoke (agent : JVal → Configurable → Except String (List AgentMessage))
    (payload : Payload) : Except String String :=
  match agent (pgetD payload "prompt" JVal.null) (config_of payload) with
  | Except.error e => Except.error e
  | Except.ok response =>
    match response.getLast? with
    | none => Except.error "IndexError: list index out of range"
    | some m => Except.ok m.content

end AgentRuntimeDR

/-- Whether an object is exactly the error object
`\x7b"type": "error", "error": <string>\x7d` returned by the math
streaming entrypoint when the wrapped pipeline raises. -/
def isErrorObj : JVal → Bool
  | JVal.obj [("type", JVal.str "error"), ("error", JVal.str _)] => true
  | _ => false

/-- Follows the claim C4's words as stated: a response is a JSON object
with a string `result` field or with a `messages` field, or (streaming) a
sequence of events each carrying one JSON object. -/
def claimedResponseShape : InvokeResult → Bool
  | InvokeResult.json j => j.hasStrKey "result" || j.hasKey "messages"
  | InvokeResult.stream evs => evs.all JVal.isObj

/-- Follows the claim C4's words as amended: additionally allows the
error object returned when the non-streaming pipeline raises. -/
def specResponseShape : InvokeResult → Bool
  | InvokeResult.json j => j.hasStrKey "result" || j.hasKey "messages" || isErrorObj j
  | InvokeResult.stream evs => evs.all JVal.isObj

/-- Concrete token identifier used to instantiate hypotheses. -/
def tok0 : OAuth2CallbackServer.UserTokenIdentifier := ⟨"jwt-abc"⟩

/-- Concrete server state with no stored token identifier. -/
def st0 : OAuth2CallbackServer.ServerState := ⟨"us-west-2", none⟩

/-- Concrete server state with a stored token identifier. -/
def st1 : OAuth2CallbackServer.ServerState := ⟨"us-west-2", some tok0⟩

/-- Concrete two-store state with both logs empty. -/
def s0 : MultiRegionAgentCoreMemorySaver.MRState := ⟨⟨[]⟩, ⟨[]⟩⟩

/-- Concrete agent behavior used to instantiate hypotheses. -/
def agent0 : JVal → AgentRuntimeDR.Configurable →
    Except String (List AgentRuntimeDR.AgentMessage) :=
  fun _ _ => Except.ok [⟨"4"⟩]

/-- Concrete pipeline behavior used to instantiate hypotheses. -/
def mathAns0 : JVal → Except String MathStreaming.MathResult :=
  fun _ => Except.ok ⟨"4", "4", "correct"⟩

/-- Concrete graph stream used to instantiate hypotheses. -/
def steps0 : List MathStreaming.GraphStep :=
  [[("worker", [("worker_output", JVal.str "42")])]]

section
open MultiRegionAgentCoreMemorySaver

/-- Appending a record to a saver log yields a state different from the
original one (the log grew). -/
lemma saver_append_ne (ss : SaverState) (w : WriteRecord) :
    (⟨ss.log ++ [w]⟩ : SaverState) ≠ ss := by
  intro h
  have h2 := congrArg (fun t => t.log.length) h
  simp at h2

/-- Claim C1: `put` (and `aput`) write to the primary store first, then to
the secondary store, sequentially, and the call raises iff either of the
two underlying writes raises. The trace shows the primary write is issued
first and the secondary write is issued exactly when the primary write
succeeded. -/
theorem c1_put_aput_sequential_dual_write
    (f : FaultSpec) (s : MRState) (thread_id : String) (data : Nat) :
    ((put f s thread_id data).err = none ↔
      (f.primaryRaises = none ∧ f.secondaryRaises = none)) ∧
    ((put f s thread_id data).trace = match f.primaryRaises with
      | some _ => [⟨Region.primary, OpName.put⟩]
      | none => [⟨Region.primary, OpName.put⟩, ⟨Region.secondary, OpName.put⟩]) ∧
    ((aput f s thread_id data).err = none ↔
      (f.primaryRaises = none ∧ f.secondaryRaises = none)) ∧
    ((aput f s thread_id data).trace = match f.primaryRaises with
      | some _ => [⟨Region.primary, OpName.aput⟩]
      | none => [⟨Region.primary, OpName.aput⟩, ⟨Region.secondary, OpName.aput⟩]) := by
  obtain ⟨fp, fs⟩ := f
  cases fp <;> cases fs <;> simp [put, aput, saverApply]

/-- Claim C3: dual-region writes (`put`, `aput`, `put_writes`,
`delete_thread`) are best-effort with no rollback: when the primary write
succeeds and the secondary write raises, the exception propagates
(`err = some e`), the primary store keeps the applied write, the secondary
store is unchanged, and two previously identical stores are left
inconsistent. -/
theorem c3_partial_failure_no_rollback (s : MRState) (thread_id : String)
    (data : Nat) (e : String) (ws : List (String × Nat))
    (task_id task_path actor_id : String) :
    ((put ⟨none, some e⟩ s thread_id data).err = some e) ∧
    ((put ⟨none, some e⟩ s thread_id data).state.primary.log =
      s.primary.log ++ [WriteRecord.checkpoint thread_id data]) ∧
    ((put ⟨none, some e⟩ s thread_id data).state.secondary = s.secondary) ∧
    (s.primary = s.secondary →
      (put ⟨none, some e⟩ s thread_id data).state.primary ≠
        (put ⟨none, some e⟩ s thread_id data).state.secondary) ∧
    ((aput ⟨none, some e⟩ s thread_id data).err = some e) ∧
    ((aput ⟨none, some e⟩ s thread_id data).state.primary.log =
      s.primary.log ++ [WriteRecord.checkpoint thread_id data]) ∧
    ((aput ⟨none, some e⟩ s thread_id data).state.secondary = s.secondary) ∧
    (s.primary = s.secondary →
      (aput ⟨none, some e⟩ s thread_id data).state.primary ≠
        (aput ⟨none, some e⟩ s thread_id data).state.secondary) ∧
    ((put_writes ⟨none, some e⟩ s thread_id ws task_id task_path).err = some e) ∧
    ((put_writes ⟨none, some e⟩ s thread_id ws task_id task_path).state.primary.log =
      s.primary.log ++ [WriteRecord.writes thread_id ws task_id task_path]) ∧
    ((put_writes ⟨none, some e⟩ s thread_id ws task_id task_path).state.secondary =
      s.secondary) ∧
    (s.primary = s.secondary →
      (put_writes ⟨none, some e⟩ s thread_id ws task_id task_path).state.primary ≠
        (put_writes ⟨none, some e⟩ s thread_id ws task_id task_path).state.secondary) ∧
    ((delete_thread ⟨none, some e⟩ s thread_id actor_id).err = some e) ∧
    ((delete_thread ⟨none, some e⟩ s thread_id actor_id).state.primary.log =
      s.primary.log ++ [WriteRecord.threadDeleted thread_id actor_id]) ∧
    ((delete_thread ⟨none, some e⟩ s thread_id actor_id).state.secondary =
      s.secondary) ∧
    (s.primary = s.secondary →
      (delete_thread ⟨none, some e⟩ s thread_id actor_id).state.primary ≠
        (delete_thread ⟨none, some e⟩ s thread_id actor_id).state.secondary) := by
  refine ⟨rfl, rfl, rfl, ?_, rfl, rfl, rfl, ?_, rfl, rfl, rfl, ?_, rfl, rfl, rfl, ?_⟩
  · intro hps
    show SaverState.mk (s.primary.log ++ [WriteRecord.checkpoint thread_id data]) ≠
      s.secondary
    rw [← hps]
    exact saver_append_ne s.primary _
  · intro hps
    show SaverState.mk (s.primary.log ++ [WriteRecord.checkpoint thread_id data]) ≠
      s.secondary
    rw [← hps]
    exact saver_append_ne s.primary _
  · intro hps
    show SaverState.mk
        (s.primary.log ++ [WriteRecord.writes thread_id ws task_id task_path]) ≠
      s.secondary
    rw [← hps]
    exact saver_append_ne s.primary _
  · intro hps
    show SaverState.mk
        (s.primary.log ++ [WriteRecord.threadDeleted thread_id actor_id]) ≠
      s.secondary
    rw [← hps]
    exact saver_append_ne s.primary _

/-- Witness for C3 at a concrete state: both stores start empty and equal;
after a `put` whose secondary write raises, the call reports the failure
and the two stores differ. -/
theorem c3_witness :
    (put ⟨none, some "fail"⟩ s0 "t1" 7).err = some "fail" ∧
    (put ⟨none, some "fail"⟩ s0 "t1" 7).state.primary ≠
      (put ⟨none, some "fail"⟩ s0 "t1" 7).state.secondary :=
  ⟨(c3_partial_failure_no_rollback s0 "t1" 7 "fail" [] "" "" "").1,
   (c3_partial_failure_no_rollback s0 "t1" 7 "fail" [] "" "" "").2.2.2.1 rfl⟩

/-- Claim C8: every read operation (`get`, `aget`, `get_tuple`,
`aget_tuple`, `list`, `alist`, `get_next_version`) delegates only to the
primary saver: its trace is a single primary-region call, the two-store
state is unchanged, and the result is the primary saver's result. -/
theorem c8_reads_delegate_to_primary_only
    (s : MRState) (thread : String) (current : Option String) :
    ((get s thread).2.2 = [⟨Region.primary, OpName.get⟩]) ∧
    ((get s thread).2.1 = s) ∧
    ((get s thread).1 = saverGet s.primary thread) ∧
    ((aget s thread).2.2 = [⟨Region.primary, OpName.aget⟩]) ∧
    ((aget s thread).2.1 = s) ∧
    ((aget s thread).1 = saverGet s.primary thread) ∧
    ((get_tuple s thread).2.2 = [⟨Region.primary, OpName.get_tuple⟩]) ∧
    ((get_tuple s thread).2.1 = s) ∧
    ((get_tuple s thread).1 = saverGetTuple s.primary thread) ∧
    ((aget_tuple s thread).2.2 = [⟨Region.primary, OpName.aget_tuple⟩]) ∧
    ((aget_tuple s thread).2.1 = s) ∧
    ((aget_tuple s thread).1 = saverGetTuple s.primary thread) ∧
    ((list s thread).2.2 = [⟨Region.primary, OpName.list⟩]) ∧
    ((list s thread).2.1 = s) ∧
    ((list s thread).1 = saverList s.primary thread) ∧
    ((alist s thread).2.2 = [⟨Region.primary, OpName.alist⟩]) ∧
    ((alist s thread).2.1 = s) ∧
    ((alist s thread).1 = saverList s.primary thread) ∧
    ((get_next_version s current).2.2 = [⟨Region.primary, OpName.get_next_version⟩]) ∧
    ((get_next_version s current).2.1 = s) ∧
    ((get_next_version s current).1 = saverGetNextVersion current) :=
  ⟨rfl, rfl, rfl, rfl, rfl, rfl, rfl, rfl, rfl, rfl, rfl, rfl, rfl, rfl, rfl,
   rfl, rfl, rfl, rfl, rfl, rfl⟩

end

section
open OAuth2CallbackServer

/-- Claim C2: `GET /oauth2/callback` returns 400 when the `session_id`
query parameter is missing (delivered to the handler as the falsy empty
string), 500 when no user token identifier was previously stored, and
otherwise calls `complete_resource_token_auth` on the identity client and
returns the static HTML success page with status 200. -/
theorem c2_oauth2_callback_statuses (session_id : String) (st : ServerState) :
    (session_id = "" →
      handle_oauth2_callback session_id st =
        (⟨400, RespBody.json (JVal.obj
          [("detail", JVal.str "Missing session_id query parameter")])⟩, [])) ∧
    (session_id ≠ "" → st.user_token_identifier = none →
      handle_oauth2_callback session_id st =
        (⟨500, RespBody.json (JVal.obj
          [("detail", JVal.str "Internal Server Error")])⟩, [])) ∧
    (∀ tok, session_id ≠ "" → st.user_token_identifier = some tok →
      handle_oauth2_callback session_id st =
        (⟨200, RespBody.html html_content⟩,
          [IdentityEffect.completeResourceTokenAuth session_id tok])) := by
  refine ⟨?_, ?_, ?_⟩
  · intro h
    simp [handle_oauth2_callback, h]
  · intro h hn
    simp [handle_oauth2_callback, h, hn]
  · intro tok h ht
    simp [handle_oauth2_callback, h, ht]

/-- Witness for C2 at concrete inputs: missing `session_id` gives 400, a
present `session_id` with no stored identifier gives 500, and with a
stored identifier the exchange is completed and the HTML page returned
with 200. -/
theorem c2_witness :
    handle_oauth2_callback "" st0 =
      (⟨400, RespBody.json (JVal.obj
        [("detail", JVal.str "Missing session_id query parameter")])⟩, []) ∧
    handle_oauth2_callback "sess-123" st0 =
      (⟨500, RespBody.json (JVal.obj
        [("detail", JVal.str "Internal Server Error")])⟩, []) ∧
    handle_oauth2_callback "sess-123" st1 =
      (⟨200, RespBody.html html_content⟩,
        [IdentityEffect.completeResourceTokenAuth "sess-123" tok0]) :=
  ⟨(c2_oauth2_callback_statuses "" st0).1 rfl,
   (c2_oauth2_callback_statuses "sess-123" st0).2.1 (by decide) rfl,
   (c2_oauth2_callback_statuses "sess-123" st1).2.2 tok0 (by decide) rfl⟩

/-- Claim C5: `GET /ping` responds with HTTP 200 and body
`\x7b"status": "success"\x7d`. -/
theorem c5_ping_success :
    handle_ping.status = 200 ∧
    handle_ping.body = RespBody.json (JVal.obj [("status", JVal.str "success")]) :=
  ⟨rfl, rfl⟩

/-- Claim C6: `POST /userIdentifier/token` stores the identifier in the
server instance's memory, changes no other in-process state, and issues no
call to the external identity service (no persistence). -/
theorem c6_store_user_token_frame (v : UserTokenIdentifier) (st : ServerState) :
    (store_user_token v st).1.user_token_identifier = some v ∧
    (store_user_token v st).1.region = st.region ∧
    (store_user_token v st).2 = [] :=
  ⟨rfl, rfl, rfl⟩

end

section
open MathStreaming AgentRuntimeDR

/-- Every event produced by the streaming adaptor is a JSON object. -/
lemma mem_amqs_isObj (steps : List GraphStep) :
    ∀ x ∈ answer_math_question_streaming steps, x.isObj = true := by
  intro x hx
  simp only [answer_math_question_streaming, List.mem_flatMap, List.mem_map] at hx
  obtain ⟨step, _, p, _, rfl⟩ := hx
  rfl

/-- Every event of `_invoke_stream`, including a final `stream_error`
event, is a JSON object. -/
lemma invoke_stream_all_isObj (steps : List GraphStep) (gerr : Option String) :
    (invoke_stream steps gerr).all JVal.isObj = true := by
  rw [List.all_eq_true]
  intro x hx
  cases gerr with
  | none => exact mem_amqs_isObj steps x hx
  | some e =>
    rw [invoke_stream, List.mem_append] at hx
    rcases hx with hx | hx
    · exact mem_amqs_isObj steps x hx
    · rw [List.mem_singleton] at hx
      rw [hx]
      rfl

/-- The math streaming entrypoint always returns normally. -/
lemma math_invoke_returns_ok (answer : JVal → Except String MathResult)
    (steps : List GraphStep) (gerr : Option String) (payload : Payload) :
    ∃ r, MathStreaming.invoke answer steps gerr payload = Except.ok r := by
  unfold MathStreaming.invoke
  by_cases hw : want_stream payload = true
  · rw [if_pos hw]
    exact ⟨_, rfl⟩
  · rw [if_neg hw]
    cases hA : answer (pgetD payload "prompt" (JVal.str "")) with
    | error e => exact ⟨_, rfl⟩
    | ok result => exact ⟨_, rfl⟩

/-- Claim C9: if the underlying graph-streaming generator raises, the
stream does not terminate abnormally: the events produced so far are
followed by exactly one final `stream_error` event carrying the exception
text, and the generator ends normally; without a raise the events are
passed through unchanged. -/
theorem c9_stream_error_event (steps : List GraphStep) (e : String) :
    invoke_stream steps (some e) =
      answer_math_question_streaming steps ++
        [JVal.obj [("type", JVal.str "stream_error"), ("error", JVal.str e)]] ∧
    (invoke_stream steps (some e)).getLast? =
      some (JVal.obj [("type", JVal.str "stream_error"), ("error", JVal.str e)]) ∧
    invoke_stream steps none = answer_math_question_streaming steps := by
  refine ⟨rfl, ?_, rfl⟩
  rw [invoke_stream, List.getLast?_concat]

/-- Claim C10: the AgentcoreMemoryDR runtime entrypoint defaults
`thread_id` to `"default"` and `actor_id` to `"agent-1"` when the payload
omits them, and consults the agent exactly at that configurable config
(two agents agreeing there produce the same invocation result). -/
theorem c10_thread_actor_defaults (payload : Payload)
    (agent : JVal → Configurable → Except String (List AgentMessage)) :
    (pget payload "thread_id" = none →
      (config_of payload).thread_id = JVal.str "default") ∧
    (pget payload "actor_id" = none →
      (config_of payload).actor_id = JVal.str "agent-1") ∧
    (∀ g : JVal → Configurable → Except String (List AgentMessage),
      agent (pgetD payload "prompt" JVal.null) (config_of payload) =
        g (pgetD payload "prompt" JVal.null) (config_of payload) →
      AgentRuntimeDR.invoke agent payload = AgentRuntimeDR.invoke g payload) := by
  refine ⟨?_, ?_, ?_⟩
  · intro h
    simp [config_of, pgetD, h]
  · intro h
    simp [config_of, pgetD, h]
  · intro g hg
    unfold AgentRuntimeDR.invoke
    rw [hg]

/-- Witness for C10 at a concrete payload omitting both fields: the
defaults appear in the config, and the delegation equation holds. -/
theorem c10_witness :
    (config_of [("prompt", JVal.str "hi")]).thread_id = JVal.str "default" ∧
    (config_of [("prompt", JVal.str "hi")]).actor_id = JVal.str "agent-1" ∧
    AgentRuntimeDR.invoke agent0 [("prompt", JVal.str "hi")] =
      AgentRuntimeDR.invoke agent0 [("prompt", JVal.str "hi")] :=
  ⟨(c10_thread_actor_defaults [("prompt", JVal.str "hi")] agent0).1 rfl,
   (c10_thread_actor_defaults [("prompt", JVal.str "hi")] agent0).2.1 rfl,
   (c10_thread_actor_defaults [("prompt", JVal.str "hi")] agent0).2.2 agent0 rfl⟩

/-- Claim C7, counterexample to the claim as stated: the math streaming
entrypoint converts an arbitrary (non-HTTP) exception raised by the
wrapped pipeline into a normal response value instead of letting it
propagate to the process boundary. -/
theorem c7_as_stated_counterexample :
    MathStreaming.invoke (fun _ => Except.error "RuntimeError: boom") [] none
        [("prompt", JVal.str "hello")] =
      Except.ok (InvokeResult.json (JVal.obj
        [("type", JVal.str "error"), ("error", JVal.str "RuntimeError: boom")])) :=
  rfl

/-- Claim C7 as amended: the AgentcoreMemoryDR runtime entrypoint has no
handler, so any exception raised by the agent propagates uncaught to the
process boundary; the math streaming entrypoint, however, always returns
normally, converting an arbitrary pipeline exception into the normal
response value `\x7b"type": "error", "error": str(e)\x7d`. -/
theorem c7_amended_exception_propagation (payload : Payload) (e : String)
    (answer : JVal → Except String MathResult)
    (steps : List GraphStep) (gerr : Option String) :
    AgentRuntimeDR.invoke (fun _ _ => Except.error e) payload = Except.error e ∧
    (∃ r, MathStreaming.invoke answer steps gerr payload = Except.ok r) ∧
    (want_stream payload = false →
      MathStreaming.invoke (fun _ => Except.error e) steps gerr payload =
        Except.ok (InvokeResult.json (JVal.obj
          [("type", JVal.str "error"), ("error", JVal.str e)]))) := by
  refine ⟨rfl, math_invoke_returns_ok answer steps gerr payload, ?_⟩
  intro hw
  unfold MathStreaming.invoke
  rw [if_neg (by rw [hw]; exact Bool.false_ne_true)]

/-- Witness for the amended C7 at concrete inputs: the DR entrypoint
propagates the agent's exception; the math entrypoint turns the same
exception into a normal error-object response. -/
theorem c7_witness :
    AgentRuntimeDR.invoke (fun _ _ => Except.error "boom2")
        [("prompt", JVal.str "x")] = Except.error "boom2" ∧
    want_stream [("prompt", JVal.str "x")] = false ∧
    MathStreaming.invoke (fun _ => Except.error "boom2") [] none
        [("prompt", JVal.str "x")] =
      Except.ok (InvokeResult.json (JVal.obj
        [("type", JVal.str "error"), ("error", JVal.str "boom2")])) :=
  ⟨(c7_amended_exception_propagation [("prompt", JVal.str "x")] "boom2"
      mathAns0 [] none).1,
   rfl,
   (c7_amended_exception_propagation [("prompt", JVal.str "x")] "boom2"
      mathAns0 [] none).2.2 rfl⟩

/-- Claim C4, counterexample to the claim as stated: when the non-streaming
math pipeline raises, the entrypoint's response is the JSON object
`\x7b"type": "error", "error": str(e)\x7d`, which is neither of the claimed
forms (`result`/`messages`) and not an SSE stream. -/
theorem c4_as_stated_counterexample :
    MathStreaming.invoke
        (fun _ => Except.error "ZeroDivisionError: division by zero") [] none
        [("prompt", JVal.str "compute 1/0")] =
      Except.ok (InvokeResult.json (JVal.obj
        [("type", JVal.str "error"),
         ("error", JVal.str "ZeroDivisionError: division by zero")])) ∧
    claimedResponseShape (InvokeResult.json (JVal.obj
        [("type", JVal.str "error"),
         ("error", JVal.str "ZeroDivisionError: division by zero")])) = false :=
  ⟨rfl, rfl⟩

/-- Claim C4 as amended: the entrypoints accept any JSON payload (with
`prompt` and optional `thread_id`/`actor_id`/`stream` fields) and return
a JSON object with a string `result` field or a `messages` field, or the
error object `\x7b"type": "error", "error": str\x7d` when the non-streaming
pipeline raises, or, exactly when streaming is requested via the payload,
a sequence of SSE events each carrying one JSON object. -/
theorem c4_amended_response_shapes (llm : JVal → String)
    (answer : JVal → Except String MathResult)
    (steps : List GraphStep) (gerr : Option String) (payload : Payload) :
    specResponseShape (SimpleLanggraphAgent.invoke llm payload) = true ∧
    (want_stream payload = true →
      MathStreaming.invoke answer steps gerr payload =
        Except.ok (InvokeResult.stream (invoke_stream steps gerr))) ∧
    ((invoke_stream steps gerr).all JVal.isObj = true) ∧
    (want_stream payload = false →
      ∃ j, MathStreaming.invoke answer steps gerr payload =
          Except.ok (InvokeResult.json j) ∧
        (j.hasStrKey "result" || isErrorObj j) = true) := by
  refine ⟨rfl, ?_, invoke_stream_all_isObj steps gerr, ?_⟩
  · intro hw
    unfold MathStreaming.invoke
    rw [if_pos hw]
  · intro hw
    unfold MathStreaming.invoke
    rw [if_neg (by rw [hw]; exact Bool.false_ne_true)]
    cases hA : answer (pgetD payload "prompt" (JVal.str "")) with
    | error e => exact ⟨_, rfl, rfl⟩
    | ok result => exact ⟨_, rfl, rfl⟩

/-- Witness for the amended C4 at concrete inputs: a payload requesting
streaming gets a stream of JSON objects; a plain payload gets a JSON
object with a string `result` field. -/
theorem c4_witness :
    want_stream [("stream", JVal.bool true)] = true ∧
    MathStreaming.invoke mathAns0 steps0 none [("stream", JVal.bool true)] =
      Except.ok (InvokeResult.stream (invoke_stream steps0 none)) ∧
    want_stream [("prompt", JVal.str "q")] = false ∧
    (∃ j, MathStreaming.invoke mathAns0 steps0 none [("prompt", JVal.str "q")] =
        Except.ok (InvokeResult.json j) ∧
      (j.hasStrKey "result" || isErrorObj j) = true) :=
  ⟨rfl,
   (c4_amended_response_shapes (fun _ => "h") mathAns0 steps0 none
      [("stream", JVal.bool true)]).2.1 rfl,
   rfl,
   (c4_amended_response_shapes (fun _ => "h") mathAns0 steps0 none
      [("prompt", JVal.str "q")]).2.2.2 rfl⟩

end
